import Mathlib

/-!
Verification of the sardana-limaccd acquisition core against its
natural-language specification.

The definitions below are a shallow embedding of the Python sources:
  * `sardana_limaccd/client.py` — `Trigger`, `Acquisition`, `Saving`,
    `LimaImageFormat`, `saving_for_pattern`;
  * `sardana_limaccd/ctrl/LimaCtrl.py` — `TRIGGER_MAP`;
  * `sardana_limaccd/ctrl/LimaCCDCtrl.py` — `Lima.PrepareOne` trigger branch.

Python integers are modelled as `Int` (arbitrary precision, so no overflow
reasoning is needed); device interactions are modelled by passing the values
the device would return (or a flag saying the device command raised) as
explicit arguments, and the mutated object is returned.
-/

/-!
Saving-pattern parsing (`saving_for_pattern`, `client.py` lines 67-118) and
filename construction (`Saving.filename`, lines 305-318).  Strings are
processed as their character lists; each helper below models the exact
Python primitive used by the source (the regexes in the source are simple
enough to have a direct recursive reading).
-/

/-- `p.data.isPrefixOf s.data` models Python's `str.startswith`. -/
def strStartsWith (s p : String) : Bool := p.data.isPrefixOf s.data

/-- Model of `client.py` class `Trigger`: a wrapper around the upper-case
trigger-mode string. -/
structure Trigger where
  mode : String
deriving DecidableEq, Repr

/-- `Trigger.is_internal` from `client.py`. -/
def Trigger.is_internal (t : Trigger) : Bool := strStartsWith t.mode "INTERNAL"

/-- `Trigger.is_internal_multi` from `client.py`. -/
def Trigger.is_internal_multi (t : Trigger) : Bool :=
  t.mode == "INTERNAL_TRIGGER_MULTI"

/-- `Trigger.is_external` from `client.py`. -/
def Trigger.is_external (t : Trigger) : Bool := strStartsWith t.mode "EXTERNAL"

/-- `Trigger.is_external_start` from `client.py` (External-Single). -/
def Trigger.is_external_start (t : Trigger) : Bool := t.mode == "EXTERNAL_TRIGGER"

/-- The slice of `client.py` class `Saving` consumed by `Acquisition`:
the `enabled` flag, the device-reported managed mode and frames-per-file. -/
structure Saving where
  enabled : Bool
  saving_managed_mode : String
  frames_per_file : Int
deriving DecidableEq, Repr

/-- Model of `client.py` class `Acquisition` (its mutable state).
`nb_frames = nb_points * nb_starts` is computed by the constructor, so it is
stored directly here. -/
structure Acquisition where
  nb_frames : Int
  trigger : Trigger
  nb_starts : Int
  nb_starts_called : Int
  stopped : Bool
  acq_next_number : Int
  save_next_number : Int
  last_saved_number : Int
  saving : Saving
deriving DecidableEq, Repr

/-- `Acquisition.get_next_number` from `client.py`. -/
def Acquisition.get_next_number (a : Acquisition) : Int :=
  if a.saving.enabled then a.save_next_number else a.acq_next_number

/-- `Acquisition.calc_status` from `client.py` (lines 218-239), a pure
function of the session state and the freshly read device snapshot
`(acq_status, ready_for_next, idx_ready, idx_saved)`. -/
def Acquisition.calc_status (a : Acquisition) (acq_status : String)
    (ready_for_next : Bool) (idx_ready idx_saved : Int) : String :=
  if ¬ (acq_status = "Ready" ∨ acq_status = "Running") then acq_status
  else if a.stopped then "Ready"
  else if a.nb_starts_called = 0 then "Ready"
  else
    let idx_finished := if a.saving.enabled then idx_saved else idx_ready
    let status1 := if idx_finished < a.nb_frames - 1 then "Running" else acq_status
    if status1 = "Running" then
      if a.trigger.is_internal_multi ∧ ready_for_next then
        if idx_finished + 1 ≥ a.nb_starts_called ∨
            a.saving.saving_managed_mode = "HARDWARE" then "Ready"
        else status1
      else if a.trigger.is_external ∧ a.nb_starts > 1 then
        -- source line 237: `if self.get_next_number() + idx_finished >=
        --                       self.get_next_number():`
        if a.get_next_number + idx_finished ≥ a.get_next_number then "Ready"
        else status1
      else status1
    else status1

/-- `Acquisition.start` from `client.py` (lines 208-216).
`dev_saving_next_number` is the value a read of the device attribute
`saving_next_number` would return.  The second component records whether the
device command `startAcq` was issued during this call. -/
def Acquisition.start (a : Acquisition) (dev_saving_next_number : Int) :
    Acquisition × Bool :=
  if a.trigger.is_external = false ∨ a.nb_starts_called < 1 then
    let a1 := if a.saving.enabled
      then { a with save_next_number := dev_saving_next_number } else a
    ({ a1 with nb_starts_called := a.nb_starts_called + 1 }, true)
  else
    ({ a with nb_starts_called := a.nb_starts_called + 1 }, false)

/-- `Acquisition.stop` from `client.py` (lines 191-193).  `cmd_raises` says
whether the device command `stopAcq` raised; in that case the exception
propagates before `self.stopped = True` runs, so the state is unchanged.
The second component reports whether an exception propagated. -/
def Acquisition.stop (a : Acquisition) (cmd_raises : Bool) :
    Acquisition × Bool :=
  if cmd_raises then (a, true) else ({ a with stopped := true }, false)

/-- `Acquisition.abort` from `client.py` (lines 195-197), same shape as
`Acquisition.stop` but issuing `abortAcq`. -/
def Acquisition.abort (a : Acquisition) (cmd_raises : Bool) :
    Acquisition × Bool :=
  if cmd_raises then (a, true) else ({ a with stopped := true }, false)

/-- `Acquisition.next_frame` from `client.py` (lines 241-249), the
single-frame poll: when `_acq_next_number > last_image_ready` nothing is
returned (`None`) and the state is unchanged; otherwise the frame at
`_acq_next_number` (the result of `read_frames(n, n+1)[0]`, represented by
its frame number) is returned and the counter advances by one. -/
def Acquisition.next_frame (a : Acquisition) (last_image_ready : Int) :
    Option Int × Acquisition :=
  let n := a.acq_next_number
  if n > last_image_ready then (none, a)
  else (some n, { a with acq_next_number := a.acq_next_number + 1 })

/-- `Acquisition.next_frames` from `client.py` (lines 251-259).
`last_image_ready` is the value the device attribute read returns.  The
frames returned by `read_frames(start, last+1)` are represented by their
frame numbers `start, start+1, ..., last`. -/
def Acquisition.next_frames (a : Acquisition) (last_image_ready : Int) :
    List Int × Acquisition :=
  let start := a.acq_next_number
  if last_image_ready < start then ([], a)
  else
    let frames := (List.range (last_image_ready + 1 - start).toNat).map
      (fun (i : Nat) => start + (i : Int))
    (frames, { a with acq_next_number := a.acq_next_number + frames.length })

/-- The `for i in range(n)` loop body of `Acquisition.next_ref_frames`:
given `frames_per_file` and `save_next` (which the loop never modifies) and
the running `last_saved` counter, emit `n` file numbers.  Python's
`int((last_saved+1) / frames_per_file)` truncates toward zero
(`Int.tdiv`). -/
def ref_loop (frames_per_file save_next : Int) : Int → Nat → List Int × Int
  | last_saved, 0 => ([], last_saved)
  | last_saved, Nat.succ k =>
    let file_nr := Int.tdiv (last_saved + 1) frames_per_file + save_next
    let rest := ref_loop frames_per_file save_next (last_saved + 1) k
    (file_nr :: rest.1, rest.2)

/-- `Acquisition.next_ref_frames` from `client.py` (lines 270-282).
`lima_last_image_saved` is the device's `last_image_saved` reading.  The
returned list holds the file numbers passed to `Saving.filename`. -/
def Acquisition.next_ref_frames (a : Acquisition)
    (lima_last_image_saved : Int) : List Int × Acquisition :=
  let n := (lima_last_image_saved - a.last_saved_number).toNat
  let res := ref_loop a.saving.frames_per_file a.save_next_number
    a.last_saved_number n
  (res.1, { a with last_saved_number := res.2 })

/-- Concrete session used to refute C1: external trigger, 2 starts, one
start called, saving disabled, local next-number counter still 0. -/
def c1Acq : Acquisition :=
  { nb_frames := 10
    trigger := ⟨"EXTERNAL_TRIGGER_MULTI"⟩
    nb_starts := 2
    nb_starts_called := 1
    stopped := false
    acq_next_number := 0
    save_next_number := 0
    last_saved_number := -1
    saving := ⟨false, "SOFTWARE", 1⟩ }

/-- Concrete session used to refute C2: `start()` was never called. -/
def c2Acq : Acquisition :=
  { nb_frames := 5
    trigger := ⟨"INTERNAL_TRIGGER"⟩
    nb_starts := 1
    nb_starts_called := 0
    stopped := false
    acq_next_number := 0
    save_next_number := 0
    last_saved_number := -1
    saving := ⟨false, "SOFTWARE", 1⟩ }

/-- Concrete session used to refute C3: External-Multi trigger (not
External-Single), one start already called. -/
def c3Acq : Acquisition :=
  { nb_frames := 10
    trigger := ⟨"EXTERNAL_TRIGGER_MULTI"⟩
    nb_starts := 2
    nb_starts_called := 1
    stopped := false
    acq_next_number := 0
    save_next_number := 0
    last_saved_number := -1
    saving := ⟨false, "SOFTWARE", 1⟩ }

/-- Concrete session used to refute C4: saving enabled, software managed
mode, `save_next_number = 5`, nothing saved yet. -/
def c4Acq : Acquisition :=
  { nb_frames := 10
    trigger := ⟨"EXTERNAL_TRIGGER_MULTI"⟩
    nb_starts := 2
    nb_starts_called := 1
    stopped := false
    acq_next_number := 0
    save_next_number := 5
    last_saved_number := -1
    saving := ⟨true, "SOFTWARE", 1⟩ }

/-- Concrete session used to refute C5 on the single-frame form: the local
counter is at 0 while the device already reports `last_image_ready = 1`. -/
def c5Acq : Acquisition :=
  { nb_frames := 5
    trigger := ⟨"INTERNAL_TRIGGER"⟩
    nb_starts := 1
    nb_starts_called := 1
    stopped := false
    acq_next_number := 0
    save_next_number := 0
    last_saved_number := -1
    saving := ⟨false, "SOFTWARE", 1⟩ }

/-- The sardana `AcqSynch` synchronization modes. -/
inductive AcqSynch where
  | SoftwareStart
  | SoftwareTrigger
  | SoftwareGate
  | HardwareStart
  | HardwareTrigger
  | HardwareGate
deriving DecidableEq, Repr

/-- `TRIGGER_MAP` from `ctrl/LimaCtrl.py` (lines 16-22).  The Python dict
has *no* entry for `SoftwareTrigger`, so a lookup for it raises `KeyError`,
modelled as `none`. -/
def TRIGGER_MAP : AcqSynch → Option String
  | .SoftwareStart => some "INTERNAL_TRIGGER_MULTI"
  | .SoftwareGate => some "INTERNAL_TRIGGER_MULTI"
  | .HardwareStart => some "EXTERNAL_TRIGGER"
  | .HardwareTrigger => some "EXTERNAL_TRIGGER_MULTI"
  | .HardwareGate => some "EXTERNAL_GATE"
  | .SoftwareTrigger => none

/-- The trigger-mode selection branch of `Lima.PrepareOne` in
`ctrl/LimaCCDCtrl.py` (lines 380-394): `SoftwareTrigger` and `SoftwareGate`
return early (the acquisition is configured point-by-point in `LoadOne`
with mode `Internal_trigger`), modelled as `none` here; the remaining four
modes pick a concrete device trigger mode. -/
def prepareOneTriggerMode : AcqSynch → Option String
  | .SoftwareTrigger => none
  | .SoftwareGate => none
  | .SoftwareStart => some "Internal_trigger"
  | .HardwareStart => some "External_trigger"
  | .HardwareTrigger => some "External_trigger_multi"
  | .HardwareGate => some "External_gate"

/-- The open-brace character, written via its code point. -/
def lbraceChar : Char := Char.ofNat 123

/-- The close-brace character, written via its code point. -/
def rbraceChar : Char := Char.ofNat 125

/-- Suffix of `s` after the first occurrence of `pat`:
models `re.findall('\://(.*?)$', pattern)[0]` (with `pat = "://"`), which
captures everything after the first `"://"` and raises `IndexError`
(→ `none`) when the marker is absent. -/
def afterFirstSubstr (pat : List Char) : List Char → Option (List Char)
  | [] => if pat.isPrefixOf ([] : List Char) then some [] else none
  | c :: t =>
    if pat.isPrefixOf (c :: t) then some ((c :: t).drop pat.length)
    else afterFirstSubstr pat t

/-- Index of the last occurrence of `c` in the list (Python `str.rfind`,
with `none` for "not found"). -/
def lastIdxOf (c : Char) : List Char → Option Nat
  | [] => none
  | a :: t =>
    match lastIdxOf c t with
    | some i => some (i + 1)
    | none => if a = c then some 0 else none

/-- Python `str.rstrip` for a single character. -/
def rstripChar (c : Char) (s : List Char) : List Char :=
  (s.reverse.dropWhile (fun ch => ch = c)).reverse

/-- POSIX `os.path.split`: split after the last `'/'`; the head keeps its
trailing slashes only when it consists solely of slashes. -/
def osPathSplit (p : List Char) : List Char × List Char :=
  match lastIdxOf '/' p with
  | none => ([], p)
  | some i =>
    let head := p.take (i + 1)
    let tail := p.drop (i + 1)
    let head2 := if head.all (fun ch => ch = '/') then head
                 else rstripChar '/' head
    (head2, tail)

/-- POSIX `os.path.splitext`: split at the last `'.'` provided it lies
after the last `'/'` and the basename has at least one non-dot character
before it (leading dots never start an extension). -/
def osPathSplitext (p : List Char) : List Char × List Char :=
  let fnameIdx : Nat :=
    match lastIdxOf '/' p with
    | none => 0
    | some i => i + 1
  match lastIdxOf '.' p with
  | none => (p, [])
  | some dotIdx =>
    if fnameIdx ≤ dotIdx ∧
        ((p.drop fnameIdx).take (dotIdx - fnameIdx)).any (fun ch => ch ≠ '.')
    then (p.take dotIdx, p.drop dotIdx)
    else (p, [])

/-- Scanner state machine for `re.findall('{(.*?)}', s)`: outside a brace
(`none`) it looks for an opening brace; inside (`some acc`) it collects
characters until the first closing brace.  An unclosed trailing group is
dropped, exactly as the lazy regex never matches it. -/
def braceScan : Option (List Char) → List Char → List (List Char)
  | _, [] => []
  | none, c :: t =>
    if c = lbraceChar then braceScan (some []) t else braceScan none t
  | some acc, c :: t =>
    if c = rbraceChar then acc.reverse :: braceScan none t
    else braceScan (some (c :: acc)) t

/-- All `{...}` keyword groups of `s`, in order. -/
def braceKeywords (s : List Char) : List (List Char) := braceScan none s

/-- Python `str.split` on a single separator character (always returns at
least one part). -/
def splitOnChar (c : Char) : List Char → List (List Char)
  | [] => [[]]
  | a :: t =>
    let r := splitOnChar c t
    if a = c then [] :: r
    else
      match r with
      | [] => [[a]]
      | h :: t2 => (a :: h) :: t2

/-- The distinct failure modes of `saving_for_pattern`:
`invalidPattern` for the two `ValueError('Wrong ...')` raises,
`unsupportedFormat` for `ValueError('The extension ... is not valid')`,
`unpackError` for the `ValueError` raised by unpacking
`key, value = keyword.split(':')`, and `unboundLocal` for the
`UnboundLocalError` raised when the returned dict references
`index_format` although no `index` keyword ever bound it. -/
inductive PatternError where
  | invalidPattern
  | unsupportedFormat
  | unpackError
  | unboundLocal
deriving DecidableEq, Repr

/-- `LIMA_EXT_FORMAT` from `client.py` (lines 12-17), in insertion order. -/
def LIMA_EXT_FORMAT : List (String × List String) :=
  [("EDF", [".edf"]), ("HDF5", [".h5", ".hdf5"]),
   ("CBF", [".cbf"]), ("TIFF", [".tiff"])]

/-- The suffix-validation loop of `saving_for_pattern`: the first format
whose extension list contains the suffix (the loop's `fmt` variable). -/
def lookupFormat (sfx : List Char) : Option String :=
  (LIMA_EXT_FORMAT.find? (fun p => p.2.any (fun e => e.data == sfx))).map
    (fun p => p.1)

/-- The `for keyword in keywords` loop of `saving_for_pattern`: each
keyword is unpacked as `key, value = keyword.split(':')` (anything but
exactly two parts raises, → `unpackError`); when `key.lower() == 'index'`
the accumulator is (re)bound to `'%' + value.split('d')[0] + 'd'`. -/
def processKeywords : List (List Char) → Option (List Char) →
    Except PatternError (Option (List Char))
  | [], acc => .ok acc
  | kw :: rest, acc =>
    match splitOnChar ':' kw with
    | [key, value] =>
      if key.map Char.toLower = "index".data then
        let v := ((splitOnChar 'd' value).headD [])
        processKeywords rest (some (('%' :: v) ++ ['d']))
      else processKeywords rest acc
    | _ => .error .unpackError

/-- `re.findall('(.*?){', s)[0]`: the (possibly empty) text before the
first opening brace; `none` (→ `IndexError`) when `s` has no brace. -/
def takeBeforeBrace (s : List Char) : Option (List Char) :=
  if s.contains lbraceChar then
    some (s.takeWhile (fun c => c ≠ lbraceChar))
  else none

/-- The configuration dict returned by `saving_for_pattern`.  The last
field is called `saving_prefix` in the source. -/
structure SavingConfig where
  saving_directory : String
  saving_format : String
  saving_index_format : String
  saving_suffix : String
  saving_pfx : String
deriving DecidableEq, Repr

/-- `saving_for_pattern` from `client.py` (lines 67-118), with the same
statement order as the source: marker extraction, path split, suffix
validation, keyword loop, prefix extraction, and finally the dict
construction (which is where a missing `index` keyword surfaces as an
`UnboundLocalError`). -/
def savingForPattern (pattern : String) : Except PatternError SavingConfig :=
  match afterFirstSubstr (':' :: '/' :: '/' :: []) pattern.data with
  | none => .error .invalidPattern
  | some dir_fp =>
    let ps := osPathSplit dir_fp
    let pe := osPathSplitext ps.2
    match lookupFormat pe.2 with
    | none => .error .unsupportedFormat
    | some fmt =>
      match processKeywords (braceKeywords pe.1) none with
      | .error e => .error e
      | .ok idxFmtOpt =>
        match takeBeforeBrace pe.1 with
        | none => .error .invalidPattern
        | some pfx =>
          match idxFmtOpt with
          | none => .error .unboundLocal
          | some idxFmt => .ok ⟨⟨ps.1⟩, fmt, ⟨idxFmt⟩, ⟨pe.2⟩, ⟨pfx⟩⟩

/-- Decimal value of a digit string (used for the `%0Nd` width). -/
def natOfDigits (s : List Char) : Nat :=
  s.foldl (fun acc c => acc * 10 + (c.toNat - 48)) 0

/-- Python `fmt % index` for the `"%...d"` format strings produced by
`saving_for_pattern` (an optional `'0'` flag followed by a decimal width):
decimal rendering, left-padded to the width with zeros (after the sign) or
spaces. -/
def pyFormatInt (fmt : String) (i : Int) : String :=
  let spec := (fmt.data.drop 1).dropLast
  let flagZero := spec.headD ' ' = '0'
  let widthChars := if flagZero then spec.drop 1 else spec
  let width := natOfDigits widthChars
  let s := toString i
  if s.length ≥ width then s
  else
    if flagZero then
      if i < 0 then
        ⟨'-' :: List.replicate (width - s.length) '0' ++ s.data.drop 1⟩
      else ⟨List.replicate (width - s.length) '0' ++ s.data⟩
    else ⟨List.replicate (width - s.length) ' ' ++ s.data⟩

/-- `Saving.filename` from `client.py` (lines 305-318): scheme and dataset
path are selected by the saving format, the extra hardware prefix by the
managed mode, and the index is rendered through the parsed index format
before template substitution. -/
def savingFilename (config : SavingConfig) (saving_managed_mode
    dataset_path extra_hw_pfx : String) (index : Int) : String :=
  let scheme := if config.saving_format = "HDF5" then "h5file" else "file"
  let dataset := if config.saving_format = "HDF5" then dataset_path else ""
  let hw := if saving_managed_mode = "HARDWARE" then extra_hw_pfx else ""
  let idxStr := pyFormatInt config.saving_index_format index
  scheme ++ "://" ++ config.saving_directory ++ "/" ++ config.saving_pfx ++
    hw ++ idxStr ++ config.saving_suffix ++ dataset

/-!
The binary frame decoder `LimaImageFormat` (`client.py` lines 20-64).
Buffers are byte lists (each entry < 256 for well-formed buffers); the
struct fields are read little-endian at the offsets fixed by the shared
header prefix `<IHHIIHHHH` (magic at 0, version at 4, headerSize at 6,
category at 8, imageType at 12, endianness at 16, ndim at 18, dim1 at 20,
dim2 at 22).
-/

/-- Byte of a buffer at an offset (0 past the end, matching a view that is
never taken there). -/
def byteAt : List Nat → Nat → Nat
  | [], _ => 0
  | b :: bs, k =>
    match k with
    | 0 => b
    | k' + 1 => byteAt bs k'

/-- Little-endian 16-bit read at an offset. -/
def decU16 (b : List Nat) (k : Nat) : Nat := byteAt b k + 256 * byteAt b (k + 1)

/-- Little-endian 32-bit read at an offset. -/
def decU32 (b : List Nat) (k : Nat) : Nat :=
  byteAt b k + 256 * byteAt b (k + 1) + 65536 * byteAt b (k + 2) +
    16777216 * byteAt b (k + 3)

/-- `LimaImageFormat.Magic` from `client.py`. -/
def limaMagic : Nat := 0x44544159

/-- `struct.calcsize` of `DArrayPackStr[v]` (`client.py` lines 27-29):
version 2 is `<IHHIIHHHHHHHHIIIIIIII` (11 u32 + 10 u16 = 64 bytes),
version 3 is `<IHHIIHHHHHHHHIIIIIIQ` (9 u32 + 10 u16 + 1 u64 = 64 bytes),
version 4 is `<IHHIIHHHHHHHHIIIIIIQQII` (11 u32 + 10 u16 + 2 u64 = 80
bytes); any other version makes the constructor raise `ValueError`. -/
def structSize (v : Nat) : Option Nat :=
  if v = 2 then some 64
  else if v = 3 then some 64
  else if v = 4 then some 80
  else none

/-- The failure modes of the decoder: the three `assert`s (magic, version,
header size), the constructor's version check, an invalid `imageType`
index (`DTypes[typ]` is `None` or out of range), and a buffer too short
for `struct.unpack_from` / `numpy.frombuffer`. -/
inductive DecodeError where
  | malformedHeader
  | versionMismatch
  | headerSizeMismatch
  | unsupportedVersion
  | unsupportedPixelType
  | bufferTooShort
deriving DecidableEq, Repr

/-- A decoded frame: numpy dtype name, shape (as set by
`frame.shape = d2, d1` in `client.py`), and the pixel bytes viewed. -/
structure Frame where
  dtype : String
  shape : Nat × Nat
  pixelData : List Nat
deriving DecidableEq, Repr

/-- `LimaImageFormat.DTypes` zipped with `DTypeSize` (`client.py` lines
23-24); index 3 is the reserved/invalid entry. -/
def DTypes : List (Option (String × Nat)) :=
  [some ("u1", 1), some ("u2", 2), some ("u4", 4), none,
   some ("i1", 1), some ("i2", 2), some ("i4", 4)]

/-- `DTypes[typ]` with out-of-range indices mapped to `none`. -/
def dtypeOf (typ : Nat) : Option (String × Nat) := DTypes.getD typ none

/-- `numpy.frombuffer(buff, count, dtype, offset)`: a view of `cnt` bytes
at `off`, failing when the buffer is too short. -/
def sliceFrame (buff : List Nat) (off cnt : Nat) : Option (List Nat) :=
  if off + cnt ≤ buff.length then some ((buff.drop off).take cnt) else none

/-- The `for i in range(n)` slicing loop of `decode`: frame `i` is the
`cnt`-byte view at offset `i * fds + hsize`. -/
def framesLoop (buff : List Nat) (fds hsize cnt : Nat) :
    Nat → Nat → Option (List (List Nat))
  | _, 0 => some []
  | i, k + 1 =>
    match sliceFrame buff (i * fds + hsize) cnt with
    | none => none
    | some f =>
      match framesLoop buff fds hsize cnt (i + 1) k with
      | none => none
      | some rest => some (f :: rest)

/-- `LimaImageFormat.decode` from `client.py` (lines 42-64): unpack the
header prefix, check magic, version and header size, look up the pixel
type, then slice `n` equal-format frames out of the buffer. -/
def LimaImageFormat.decode (dataArrayVersion : Nat) (buff : List Nat)
    (n : Nat) : Except DecodeError (List Frame) :=
  match structSize dataArrayVersion with
  | none => .error .unsupportedVersion
  | some sz =>
    if buff.length < sz then .error .bufferTooShort
    else
      let magic := decU32 buff 0
      let version := decU16 buff 4
      let hsize := decU16 buff 6
      let typ := decU32 buff 12
      let d1 := decU16 buff 20
      let d2 := decU16 buff 22
      if magic ≠ limaMagic then .error .malformedHeader
      else if version ≠ dataArrayVersion then .error .versionMismatch
      else if hsize ≠ sz then .error .headerSizeMismatch
      else
        match dtypeOf typ with
        | none => .error .unsupportedPixelType
        | some dt =>
          let nb_pixels := d1 * d2
          let frame_size := nb_pixels * dt.2
          let frame_data_size := hsize + frame_size
          match framesLoop buff frame_data_size hsize frame_size 0 n with
          | none => .error .bufferTooShort
          | some datas => .ok (datas.map (fun d => ⟨dt.1, (d2, d1), d⟩))

/-- A synthetic header for version `v` of struct size `sz`: the
little-endian bytes of the magic (`0x44544159` is `[89, 65, 84, 68]`),
version, size, a zero category, the pixel type, little-endian zero
endianness, `ndim = 2`, the two dimensions, and zero padding for the
version-specific trailing fields (which `decode` never reads). -/
def mkHeader (v sz typ d1 d2 : Nat) : List Nat :=
  [89, 65, 84, 68,
   v % 256, v / 256 % 256,
   sz % 256, sz / 256 % 256,
   0, 0, 0, 0,
   typ % 256, typ / 256 % 256, typ / 65536 % 256, typ / 16777216 % 256,
   0, 0,
   2, 0,
   d1 % 256, d1 / 256 % 256,
   d2 % 256, d2 / 256 % 256] ++ List.replicate (sz - 24) 0

/-- A buffer of `n` consecutive `hdr ++ payload` blocks, payload `i` taken
from `pay i`. -/
def concatFrames (hdr : List Nat) (pay : Nat → List Nat) : Nat → List Nat
  | 0 => []
  | k + 1 => (hdr ++ pay 0) ++ concatFrames hdr (fun i => pay (i + 1)) k

/-- A trigger whose mode starts with "EXTERNAL" is not the internal-multi
trigger. -/
theorem Trigger.external_not_internal_multi (t : Trigger)
    (h : t.is_external = true) : t.is_internal_multi = false := by
  by_cases hm : t.mode = "INTERNAL_TRIGGER_MULTI"
  · rw [Trigger.is_external, strStartsWith, hm] at h
    exact absurd h (by decide)
  · simp [Trigger.is_internal_multi, hm]

/-- C1 counterexample: with the device reporting Running and
`idx_ready = 5`, the locally tracked next-number counter (0) has *not*
caught up to `idx_finished = 5`, yet `calc_status` already returns Ready —
the condition on line 237 of `client.py` is tautological for
`idx_finished ≥ 0`. -/
theorem c1_counterexample :
    c1Acq.calc_status "Running" false 5 0 = "Ready" ∧
      c1Acq.get_next_number < 5 := by decide

/-- C1 (amended): for External modes with `nb_starts > 1`, at least one
start called, not stopped, and raw status Running (or Ready forced to
Running because `idx_finished < nb_frames - 1`), the derived status is
Ready exactly when `idx_finished ≥ 0`, i.e. as soon as one frame is
finished, independently of the locally tracked next-number counter. -/
theorem c1_status_external_multistart (a : Acquisition) (s : String)
    (r : Bool) (idx_ready idx_saved : Int)
    (hext : a.trigger.is_external = true)
    (hns : a.nb_starts > 1)
    (hsc : a.nb_starts_called ≠ 0)
    (hstop : a.stopped = false)
    (hrun : s = "Running" ∨ (s = "Ready" ∧
      (if a.saving.enabled then idx_saved else idx_ready) < a.nb_frames - 1)) :
    a.calc_status s r idx_ready idx_saved =
      if 0 ≤ (if a.saving.enabled then idx_saved else idx_ready)
      then "Ready" else "Running" := by
  have him := Trigger.external_not_internal_multi a.trigger hext
  rcases hrun with hrun | ⟨hrdy, hlt⟩
  · subst hrun
    simp only [Acquisition.calc_status, Acquisition.get_next_number, hstop,
      if_neg hsc, him, hext, hns, Bool.false_eq_true, false_and, if_false,
      String.reduceEq, not_true_eq_false, or_true, true_and, and_true, if_true,
      ite_self, not_false_eq_true, or_false, false_or, gt_iff_lt]
    by_cases hen : a.saving.enabled = true <;>
      simp only [hen, if_true, if_false] <;>
      split_ifs <;> first | rfl | omega
  · subst hrdy
    simp only [Acquisition.calc_status, Acquisition.get_next_number, hstop,
      if_neg hsc, him, hext, hns, Bool.false_eq_true, false_and, if_false,
      String.reduceEq, not_true_eq_false, or_true, true_and, and_true, if_true,
      ite_self, not_false_eq_true, or_false, false_or, gt_iff_lt]
    rw [if_pos hlt]
    by_cases hen : a.saving.enabled = true <;>
      simp only [hen, if_true, if_false, String.reduceEq, not_true_eq_false,
        not_false_eq_true, if_false] <;>
      split_ifs <;> first | rfl | omega

/-- Witness for `c1_status_external_multistart` at the concrete session
`c1Acq` with snapshot `("Running", false, 5, 0)`. -/
theorem c1_status_external_multistart_witness :
    c1Acq.calc_status "Running" false 5 0 =
      if 0 ≤ (if c1Acq.saving.enabled then (0:Int) else 5)
      then "Ready" else "Running" :=
  c1_status_external_multistart c1Acq "Running" false 5 0 (by decide)
    (by decide) (by decide) (by decide) (Or.inl rfl)

/-- C2 counterexample: with `nb_starts_called = 0` and the device reporting
Running, `calc_status` returns Ready (line 223-224 of `client.py` returns
"Ready" when no start was called) — so the derived status *can* be Ready
before `start()` was ever called, refuting the claim. -/
theorem c2_counterexample :
    c2Acq.nb_starts_called = 0 ∧
      c2Acq.calc_status "Running" true 3 3 = "Ready" := by decide

/-- C2 (amended): with `nb_starts_called = 0` and a raw device status of
Ready or Running, the derived status is always Ready (a never-armed session
reports Ready, not Running); other raw statuses are passed through
verbatim. -/
theorem c2_status_before_start (a : Acquisition) (s : String) (r : Bool)
    (idx_ready idx_saved : Int)
    (h0 : a.nb_starts_called = 0)
    (hs : s = "Ready" ∨ s = "Running") :
    a.calc_status s r idx_ready idx_saved = "Ready" := by
  have : ¬ ¬ (s = "Ready" ∨ s = "Running") := not_not_intro hs
  simp only [Acquisition.calc_status, this, if_false, h0, if_true]
  split <;> rfl

/-- Witness for `c2_status_before_start` at `c2Acq` with raw status
Running. -/
theorem c2_status_before_start_witness :
    c2Acq.calc_status "Running" true 3 3 = "Ready" :=
  c2_status_before_start c2Acq "Running" true 3 3 (by decide) (Or.inr rfl)

/-- C3 counterexample: `EXTERNAL_TRIGGER_MULTI` is not External-Single, yet
a second `start()` call issues no device command — `client.py` line 209
guards on `is_external`, i.e. on *all* External modes, not just
External-Single. -/
theorem c3_counterexample :
    c3Acq.trigger.is_external_start = false ∧
      (c3Acq.start 0).2 = false := by decide

/-- C3 (amended): `start()` issues the device start command exactly when
the trigger is not External (any Internal mode) or no start was called yet;
for *every* External mode (Single, Multi and Gate alike) subsequent calls
issue no device command; `nb_starts_called` is incremented on every call. -/
theorem c3_start_behaviour (a : Acquisition) (d : Int) :
    (a.start d).1.nb_starts_called = a.nb_starts_called + 1 ∧
      ((a.start d).2 = true ↔
        (a.trigger.is_external = false ∨ a.nb_starts_called < 1)) := by
  unfold Acquisition.start
  split <;> rename_i h
  · constructor
    · split <;> rfl
    · simpa using h
  · simpa using h

/-- The sequence form `next_frames` is idempotent under an unchanged device
`last_image_ready`: immediately calling it a second time with the same
reading returns the empty list. -/
theorem c5_next_frames_idempotent (a : Acquisition) (last : Int) :
    ((a.next_frames last).2.next_frames last).1 = [] := by
  unfold Acquisition.next_frames
  by_cases h : last < a.acq_next_number
  · simp only [if_pos h]
  · simp only [if_neg h, List.length_map, List.length_range]
    have hlt : last < a.acq_next_number +
        ((last + 1 - a.acq_next_number).toNat : Int) := by omega
    simp only [if_pos hlt]

/-- C5 counterexample: the claim also covers the single-frame poll
`next_frame` (`client.py` lines 241-249), and there it fails: with the
local counter at 0 and the device reporting `last_image_ready = 1` on both
calls, the first call returns frame 0 and the second call returns frame 1
— not an empty result — because `next_frame` advances the counter by only
one per call. -/
theorem c5_counterexample :
    (c5Acq.next_frame 1).1 = some 0 ∧
      ((c5Acq.next_frame 1).2.next_frame 1).1 = some 1 ∧
      ((c5Acq.next_frame 1).2.next_frame 1).1 ≠ none := by decide

/-- C5 (amended): under an unchanged device `last_image_ready`, the
sequence form `next_frames` is idempotent — the second call returns the
empty list for every session state — but the single-frame form
`next_frame` is not: it advances the counter by only one per call, so the
second call returns the next pending frame `acq_next_number + 1` whenever
`acq_next_number + 1 ≤ last_image_ready`, and returns nothing only once
the counter has passed `last_image_ready`. -/
theorem c5_poll_idempotency (a : Acquisition) (last : Int) :
    ((a.next_frames last).2.next_frames last).1 = [] ∧
      ((a.next_frame last).2.next_frame last).1
        = (if a.acq_next_number + 1 ≤ last
           then some (a.acq_next_number + 1) else none) := by
  refine ⟨c5_next_frames_idempotent a last, ?_⟩
  unfold Acquisition.next_frame
  by_cases h : a.acq_next_number > last
  · simp only [if_pos h]
    rw [if_neg (by omega)]
  · simp only [if_neg h]
    by_cases h2 : a.acq_next_number + 1 > last
    · rw [if_pos h2, if_neg (by omega)]
    · rw [if_neg h2, if_pos (by omega)]

/-- C10 (confirmed): for both `stop()` and `abort()`, the `stopped` flag is
set only after the device command returns; if the command raises, the
session state is completely unchanged, so a later `calc_status` still
derives its result from the pre-stop state. -/
theorem c10_stop_abort_atomic (a : Acquisition) (s : String) (r : Bool)
    (idx_ready idx_saved : Int) :
    (a.stop true).1 = a ∧ (a.abort true).1 = a ∧
      (a.stop false).1.stopped = true ∧ (a.abort false).1.stopped = true ∧
      (a.stop true).1.calc_status s r idx_ready idx_saved
        = a.calc_status s r idx_ready idx_saved := by
  simp [Acquisition.stop, Acquisition.abort]

/-- One unrolling of `ref_loop` with `frames_per_file = 1`: the emitted file
numbers are consecutive, starting at `last_saved + 1 + save_next`, and the
final `last_saved` counter is advanced by the number of iterations. -/
theorem ref_loop_fpf_one (save_next : Int) : ∀ (k : Nat) (last_saved : Int),
    ref_loop 1 save_next last_saved k =
      ((List.range k).map
        (fun (i : Nat) => last_saved + 1 + (i : Int) + save_next),
        last_saved + (k : Int)) := by
  intro k
  induction k with
  | zero => intro last_saved; simp [ref_loop]
  | succ m ih =>
    intro last_saved
    rw [ref_loop, ih, List.range_succ_eq_map]
    refine Prod.ext ?_ ?_
    · simp only [List.map_cons]
      congr 1
      · rw [Int.tdiv_one]
        push_cast
        ring
      · rw [List.map_map]
        refine List.map_congr_left ?_
        intro i _
        simp only [Function.comp_apply]
        push_cast
        ring
    · simp only
      push_cast
      ring

/-- C4 counterexample: with `last_image_saved = 0` one new filename is
returned (`0 - (-1) = 1`), but `save_next_number` is *not* advanced — it
stays at 5 instead of becoming 6 — refuting "advances both
`saveNextNumber` and `lastSavedNumber` by exactly that count".  Only
`last_saved_number` is advanced by `next_ref_frames`. -/
theorem c4_counterexample :
    (c4Acq.next_ref_frames 0).1.length = 1 ∧
      (c4Acq.next_ref_frames 0).2.save_next_number = c4Acq.save_next_number ∧
      (c4Acq.next_ref_frames 0).2.last_saved_number = 0 := by decide

/-- C4 (amended): a `pollReferences` call (`next_ref_frames`) with
`frames_per_file = 1` returns exactly `last_image_saved - last_saved_number`
filenames, advances `last_saved_number` by exactly that count (up to
`last_image_saved`), leaves `save_next_number` unchanged, and the emitted
file numbers are consecutive — `last_saved_number + 1 + i + save_next_number`
for `i < n` — so no filename is re-emitted and none is skipped. -/
theorem c4_next_ref_frames (a : Acquisition) (lima_last_image_saved : Int)
    (hle : a.last_saved_number ≤ lima_last_image_saved)
    (hf : a.saving.frames_per_file = 1) :
    (a.next_ref_frames lima_last_image_saved).1.length
        = (lima_last_image_saved - a.last_saved_number).toNat ∧
      (a.next_ref_frames lima_last_image_saved).2.last_saved_number
        = lima_last_image_saved ∧
      (a.next_ref_frames lima_last_image_saved).2.save_next_number
        = a.save_next_number ∧
      (a.next_ref_frames lima_last_image_saved).1
        = (List.range (lima_last_image_saved - a.last_saved_number).toNat).map
            (fun (i : Nat) =>
              a.last_saved_number + 1 + (i : Int) + a.save_next_number) := by
  simp only [Acquisition.next_ref_frames, hf]
  rw [ref_loop_fpf_one]
  refine ⟨?_, ?_, by trivial, by trivial⟩
  · show ((List.range (lima_last_image_saved - a.last_saved_number).toNat).map
      (fun (i : Nat) =>
        a.last_saved_number + 1 + (i : Int) + a.save_next_number)).length
      = (lima_last_image_saved - a.last_saved_number).toNat
    simp
  · show a.last_saved_number +
      ((lima_last_image_saved - a.last_saved_number).toNat : Int)
      = lima_last_image_saved
    omega

/-- Witness for `c4_next_ref_frames` at `c4Acq` with
`last_image_saved = 0`. -/
theorem c4_next_ref_frames_witness :
    (c4Acq.next_ref_frames 0).1.length = (0 - c4Acq.last_saved_number).toNat ∧
      (c4Acq.next_ref_frames 0).2.last_saved_number = 0 ∧
      (c4Acq.next_ref_frames 0).2.save_next_number = c4Acq.save_next_number ∧
      (c4Acq.next_ref_frames 0).1
        = (List.range (0 - c4Acq.last_saved_number).toNat).map
            (fun (i : Nat) =>
              c4Acq.last_saved_number + 1 + (i : Int) + c4Acq.save_next_number) :=
  c4_next_ref_frames c4Acq 0 (by decide) (by decide)

/-- C6 counterexample: the claim's fixed mapping says SoftwareStart maps to
Internal/Single (`INTERNAL_TRIGGER`) and SoftwareTrigger to Internal/Multi,
but `TRIGGER_MAP` sends SoftwareStart to `INTERNAL_TRIGGER_MULTI` and has
no SoftwareTrigger entry at all (a lookup raises `KeyError`); moreover the
`PrepareOne` branch in `LimaCCDCtrl.py` sends SoftwareGate to Internal/
Single via `LoadOne`, not Internal/Multi. -/
theorem c6_counterexample :
    TRIGGER_MAP .SoftwareStart = some "INTERNAL_TRIGGER_MULTI" ∧
      TRIGGER_MAP .SoftwareStart ≠ some "INTERNAL_TRIGGER" ∧
      TRIGGER_MAP .SoftwareTrigger = none := by decide

/-- C6 (amended): the two trigger-mode tables actually present in the code.
`TRIGGER_MAP` (LimaCtrl.py): SoftwareStart and SoftwareGate map to
Internal/Multi, HardwareStart to External/Single, HardwareTrigger to
External/Multi, HardwareGate to External/Gate, and SoftwareTrigger has no
entry.  The `PrepareOne` chain (LimaCCDCtrl.py): SoftwareStart maps to
Internal/Single, HardwareStart to External/Single, HardwareTrigger to
External/Multi, HardwareGate to External/Gate, while SoftwareTrigger and
SoftwareGate are deferred to `LoadOne` (which uses Internal/Single). -/
theorem c6_trigger_tables :
    TRIGGER_MAP .SoftwareStart = some "INTERNAL_TRIGGER_MULTI" ∧
      TRIGGER_MAP .SoftwareTrigger = none ∧
      TRIGGER_MAP .SoftwareGate = some "INTERNAL_TRIGGER_MULTI" ∧
      TRIGGER_MAP .HardwareStart = some "EXTERNAL_TRIGGER" ∧
      TRIGGER_MAP .HardwareTrigger = some "EXTERNAL_TRIGGER_MULTI" ∧
      TRIGGER_MAP .HardwareGate = some "EXTERNAL_GATE" ∧
      prepareOneTriggerMode .SoftwareStart = some "Internal_trigger" ∧
      prepareOneTriggerMode .SoftwareTrigger = none ∧
      prepareOneTriggerMode .SoftwareGate = none ∧
      prepareOneTriggerMode .HardwareStart = some "External_trigger" ∧
      prepareOneTriggerMode .HardwareTrigger = some "External_trigger_multi" ∧
      prepareOneTriggerMode .HardwareGate = some "External_gate" := by
  refine ⟨rfl, rfl, rfl, rfl, rfl, rfl, rfl, rfl, rfl, rfl, rfl, rfl⟩

/-- C8 (confirmed): the pattern `"file:///data/scan/img_{index:04d}.edf"`
parses to directory `/data/scan`, prefix `img_`, suffix `.edf`, index
format `%04d` and format `EDF`; and `filename(7)` built from that
configuration (with the `Saving` defaults: software managed mode, empty
dataset path and empty extra hardware prefix) is
`"file:///data/scan/img_0007.edf"`. -/
theorem c8_concrete_pattern :
    savingForPattern "file:///data/scan/img_\x7bindex:04d\x7d.edf" =
      .ok ⟨"/data/scan", "EDF", "%04d", ".edf", "img_"⟩ ∧
      savingFilename ⟨"/data/scan", "EDF", "%04d", ".edf", "img_"⟩
        "SOFTWARE" "" "" 7 = "file:///data/scan/img_0007.edf" :=
  ⟨by rfl, by rfl⟩

/-- If a string has no opening brace, the keyword scanner finds nothing. -/
theorem braceScan_none_of_not_contains (s : List Char)
    (h : s.contains lbraceChar = false) : braceScan none s = [] := by
  induction s with
  | nil => rfl
  | cons c t ih =>
    simp only [List.contains_cons, Bool.or_eq_false_iff, beq_eq_false_iff_ne,
      ne_eq] at h
    rw [braceScan, if_neg (fun hc => h.1 hc.symm)]
    exact ih (by simpa using h.2)

/-- If a string has no opening brace, prefix extraction fails. -/
theorem takeBeforeBrace_eq_none (s : List Char)
    (h : s.contains lbraceChar = false) : takeBeforeBrace s = none := by
  unfold takeBeforeBrace
  rw [h]
  simp

/-- C9 counterexample: the pattern
`"file:///data/scan/img_{run:04d}.edf"` has marker, prefix and a valid
suffix but no `index` placeholder (only a `run` one): parsing fails with
`UnboundLocalError` (unbound `index_format` at the dict construction), an
unrelated error, not `InvalidPattern`. -/
theorem c9_counterexample :
    savingForPattern "file:///data/scan/img_\x7brun:04d\x7d.edf" =
      .error .unboundLocal ∧
      PatternError.unboundLocal ≠ PatternError.invalidPattern :=
  ⟨by rfl, by decide⟩

/-- C9 (amended): parsing fails with `InvalidPattern` whenever the `"://"`
marker is absent, and — provided the suffix is recognized — whenever the
file pattern contains no brace placeholder at all (so neither an index
placeholder nor a parseable prefix exists).  When a brace placeholder is
present but none is named `index`, the failure is an unbound-local error
(or an unpack error for a colon-free placeholder), not `InvalidPattern`. -/
theorem c9_pattern_errors (p : String) :
    (afterFirstSubstr (':' :: '/' :: '/' :: []) p.data = none →
      savingForPattern p = .error .invalidPattern) ∧
    (∀ dir_fp fmt,
      afterFirstSubstr (':' :: '/' :: '/' :: []) p.data = some dir_fp →
      lookupFormat (osPathSplitext (osPathSplit dir_fp).2).2 = some fmt →
      (osPathSplitext (osPathSplit dir_fp).2).1.contains lbraceChar = false →
      savingForPattern p = .error .invalidPattern) := by
  constructor
  · intro h
    unfold savingForPattern
    rw [h]
  · intro dir_fp fmt h hf hnb
    simp only [savingForPattern, h, hf, braceKeywords,
      braceScan_none_of_not_contains _ hnb, processKeywords,
      takeBeforeBrace_eq_none _ hnb]

/-- Witness for `c9_pattern_errors`: a pattern without the `"://"` marker
and a pattern with marker and valid suffix but no braces both fail with
`InvalidPattern`. -/
theorem c9_pattern_errors_witness :
    savingForPattern "/data/scan/img_0007.edf" = .error .invalidPattern ∧
      savingForPattern "file:///data/scan/img_0007.edf"
        = .error .invalidPattern :=
  ⟨(c9_pattern_errors "/data/scan/img_0007.edf").1 (by rfl),
   (c9_pattern_errors "file:///data/scan/img_0007.edf").2
     "/data/scan/img_0007.edf".data "EDF" (by rfl) (by rfl) (by rfl)⟩

/-- The magic field of a synthetic header decodes to the Lima magic. -/
theorem mkHeader_magic (v sz typ d1 d2 : Nat) (tail : List Nat) :
    decU32 (mkHeader v sz typ d1 d2 ++ tail) 0 = limaMagic := by
  have h : decU32 (mkHeader v sz typ d1 d2 ++ tail) 0
      = 89 + 256 * 65 + 65536 * 84 + 16777216 * 68 := by rfl
  rw [h]
  norm_num [limaMagic]

/-- The version field of a synthetic header decodes to `v`. -/
theorem mkHeader_version (v sz typ d1 d2 : Nat) (tail : List Nat)
    (hv : v < 65536) :
    decU16 (mkHeader v sz typ d1 d2 ++ tail) 4 = v := by
  have h : decU16 (mkHeader v sz typ d1 d2 ++ tail) 4
      = v % 256 + 256 * (v / 256 % 256) := by rfl
  rw [h]
  omega

/-- The header-size field of a synthetic header decodes to `sz`. -/
theorem mkHeader_hsize (v sz typ d1 d2 : Nat) (tail : List Nat)
    (hsz : sz < 65536) :
    decU16 (mkHeader v sz typ d1 d2 ++ tail) 6 = sz := by
  have h : decU16 (mkHeader v sz typ d1 d2 ++ tail) 6
      = sz % 256 + 256 * (sz / 256 % 256) := by rfl
  rw [h]
  omega

/-- The image-type field of a synthetic header decodes to `typ`. -/
theorem mkHeader_typ (v sz typ d1 d2 : Nat) (tail : List Nat)
    (ht : typ < 4294967296) :
    decU32 (mkHeader v sz typ d1 d2 ++ tail) 12 = typ := by
  have h : decU32 (mkHeader v sz typ d1 d2 ++ tail) 12
      = typ % 256 + 256 * (typ / 256 % 256) + 65536 * (typ / 65536 % 256)
        + 16777216 * (typ / 16777216 % 256) := by rfl
  rw [h]
  omega

/-- The first dimension field of a synthetic header decodes to `d1`. -/
theorem mkHeader_d1 (v sz typ d1 d2 : Nat) (tail : List Nat)
    (hd : d1 < 65536) :
    decU16 (mkHeader v sz typ d1 d2 ++ tail) 20 = d1 := by
  have h : decU16 (mkHeader v sz typ d1 d2 ++ tail) 20
      = d1 % 256 + 256 * (d1 / 256 % 256) := by rfl
  rw [h]
  omega

/-- The second dimension field of a synthetic header decodes to `d2`. -/
theorem mkHeader_d2 (v sz typ d1 d2 : Nat) (tail : List Nat)
    (hd : d2 < 65536) :
    decU16 (mkHeader v sz typ d1 d2 ++ tail) 22 = d2 := by
  have h : decU16 (mkHeader v sz typ d1 d2 ++ tail) 22
      = d2 % 256 + 256 * (d2 / 256 % 256) := by rfl
  rw [h]
  omega

/-- A synthetic header has exactly the struct size it declares. -/
theorem mkHeader_length (v sz typ d1 d2 : Nat) (h : 24 ≤ sz) :
    (mkHeader v sz typ d1 d2).length = sz := by
  simp [mkHeader]
  omega

/-- Slicing past a prefix is slicing the rest of the buffer. -/
theorem sliceFrame_append (A B : List Nat) (k cnt : Nat) :
    sliceFrame (A ++ B) (A.length + k) cnt = sliceFrame B k cnt := by
  unfold sliceFrame
  rw [List.length_append, List.drop_append]
  by_cases h : k + cnt ≤ B.length
  · rw [if_pos (by omega), if_pos h]
  · rw [if_neg (by omega), if_neg h]

/-- Dropping one leading block from the buffer shifts the slicing loop's
frame index down by one. -/
theorem framesLoop_shift (A B : List Nat) (fds hsize cnt : Nat)
    (hA : A.length = fds) :
    ∀ (k i : Nat), framesLoop (A ++ B) fds hsize cnt (i + 1) k
      = framesLoop B fds hsize cnt i k := by
  intro k
  induction k with
  | zero => intro i; rfl
  | succ m ih =>
    intro i
    rw [framesLoop, framesLoop]
    have hoff : (i + 1) * fds + hsize = A.length + (i * fds + hsize) := by
      rw [hA]; ring
    rw [hoff, sliceFrame_append, ih]

/-- On a buffer of `n` uniform `hdr ++ payload` blocks, the slicing loop
recovers exactly the `n` payloads. -/
theorem framesLoop_concat (hdr : List Nat) (hsize cnt : Nat)
    (hh : hdr.length = hsize) :
    ∀ (n : Nat) (pay : Nat → List Nat), (∀ i, (pay i).length = cnt) →
    framesLoop (concatFrames hdr pay n) (hsize + cnt) hsize cnt 0 n
      = some ((List.range n).map pay) := by
  subst hh
  intro n
  induction n with
  | zero => intro pay hp; rfl
  | succ m ih =>
    intro pay hp
    rw [concatFrames, framesLoop]
    have hfirst : sliceFrame
        ((hdr ++ pay 0) ++ concatFrames hdr (fun i => pay (i + 1)) m)
        (0 * (hdr.length + cnt) + hdr.length) cnt = some (pay 0) := by
      rw [List.append_assoc]
      have h0 : (0 * (hdr.length + cnt) + hdr.length) = hdr.length + 0 := by
        ring
      rw [h0, sliceFrame_append]
      unfold sliceFrame
      rw [if_pos (by simp [hp 0])]
      rw [List.drop_zero, ← hp 0, List.take_left]
    rw [hfirst]
    have hshift : framesLoop
        ((hdr ++ pay 0) ++ concatFrames hdr (fun i => pay (i + 1)) m)
        (hdr.length + cnt) hdr.length cnt (0 + 1) m
      = framesLoop (concatFrames hdr (fun i => pay (i + 1)) m)
        (hdr.length + cnt) hdr.length cnt 0 m := by
      refine framesLoop_shift _ _ _ _ _ ?_ m 0
      simp [hp 0]
    rw [hshift, ih (fun i => pay (i + 1)) (fun i => hp (i + 1))]
    rw [List.range_succ_eq_map, List.map_cons, List.map_map]
    rfl

/-- The supported versions and their struct sizes. -/
theorem structSize_cases (v sz : Nat) (h : structSize v = some sz) :
    (v = 2 ∧ sz = 64) ∨ (v = 3 ∧ sz = 64) ∨ (v = 4 ∧ sz = 80) := by
  unfold structSize at h
  split_ifs at h with h2 h3 h4 <;> simp_all

/-- A valid pixel-type index is within the dtype table. -/
theorem dtypeOf_lt (typ : Nat) (p : String × Nat)
    (h : dtypeOf typ = some p) : typ < 7 := by
  by_contra hc
  push_neg at hc
  rw [dtypeOf, List.getD_eq_default] at h
  · exact Option.noConfusion h
  · simpa [DTypes] using hc

/-- A non-empty block buffer is at least one header long. -/
theorem concatFrames_ge (hdr : List Nat) (pay : Nat → List Nat) (m : Nat) :
    hdr.length ≤ (concatFrames hdr pay (m + 1)).length := by
  rw [concatFrames]
  simp only [List.length_append]
  omega

/-- Decoding a buffer of `n` uniform synthetic blocks succeeds with the
`n` expected frames. -/
theorem limaDecode_concat_ok (v sz typ psz d1 d2 n : Nat) (dtName : String)
    (pay : Nat → List Nat)
    (hv : structSize v = some sz)
    (htyp : dtypeOf typ = some (dtName, psz))
    (hd1 : d1 < 65536) (hd2 : d2 < 65536)
    (hpay : ∀ i, (pay i).length = d1 * d2 * psz)
    (hn : 1 ≤ n) :
    LimaImageFormat.decode v
        (concatFrames (mkHeader v sz typ d1 d2) pay n) n
      = .ok ((List.range n).map
          (fun i => ⟨dtName, (d2, d1), pay i⟩ : Nat → Frame)) := by
  obtain ⟨m, rfl⟩ : ∃ m, n = m + 1 := ⟨n - 1, by omega⟩
  have hc := structSize_cases v sz hv
  have hsz24 : 24 ≤ sz := by
    rcases hc with ⟨_, h⟩ | ⟨_, h⟩ | ⟨_, h⟩ <;> omega
  have hsz16 : sz < 65536 := by
    rcases hc with ⟨_, h⟩ | ⟨_, h⟩ | ⟨_, h⟩ <;> omega
  have hv16 : v < 65536 := by
    rcases hc with ⟨h, _⟩ | ⟨h, _⟩ | ⟨h, _⟩ <;> omega
  have ht32 : typ < 4294967296 := by
    have := dtypeOf_lt typ _ htyp
    omega
  have hdlen : (mkHeader v sz typ d1 d2).length = sz :=
    mkHeader_length v sz typ d1 d2 hsz24
  have hbuff : concatFrames (mkHeader v sz typ d1 d2) pay (m + 1)
      = mkHeader v sz typ d1 d2 ++
        (pay 0 ++ concatFrames (mkHeader v sz typ d1 d2)
          (fun i => pay (i + 1)) m) := by
    rw [concatFrames, List.append_assoc]
  have hlen : ¬ (concatFrames (mkHeader v sz typ d1 d2) pay
      (m + 1)).length < sz := by
    have := concatFrames_ge (mkHeader v sz typ d1 d2) pay m
    omega
  have hmagic : decU32 (concatFrames (mkHeader v sz typ d1 d2) pay
      (m + 1)) 0 = limaMagic := by
    rw [hbuff]; exact mkHeader_magic v sz typ d1 d2 _
  have hver : decU16 (concatFrames (mkHeader v sz typ d1 d2) pay
      (m + 1)) 4 = v := by
    rw [hbuff]; exact mkHeader_version v sz typ d1 d2 _ hv16
  have hhs : decU16 (concatFrames (mkHeader v sz typ d1 d2) pay
      (m + 1)) 6 = sz := by
    rw [hbuff]; exact mkHeader_hsize v sz typ d1 d2 _ hsz16
  have hty : decU32 (concatFrames (mkHeader v sz typ d1 d2) pay
      (m + 1)) 12 = typ := by
    rw [hbuff]; exact mkHeader_typ v sz typ d1 d2 _ ht32
  have hfd1 : decU16 (concatFrames (mkHeader v sz typ d1 d2) pay
      (m + 1)) 20 = d1 := by
    rw [hbuff]; exact mkHeader_d1 v sz typ d1 d2 _ hd1
  have hfd2 : decU16 (concatFrames (mkHeader v sz typ d1 d2) pay
      (m + 1)) 22 = d2 := by
    rw [hbuff]; exact mkHeader_d2 v sz typ d1 d2 _ hd2
  have hloop := framesLoop_concat (mkHeader v sz typ d1 d2) sz
    (d1 * d2 * psz) hdlen (m + 1) pay hpay
  simp only [LimaImageFormat.decode, hv, if_neg hlen, hmagic, hver, hhs, hty,
    hfd1, hfd2, htyp, ne_eq, not_true_eq_false, if_false, hloop,
    List.map_map]
  rfl

/-- Decoding any buffer (long enough for the header) whose leading 32-bit
word is not the Lima magic fails with `malformedHeader`. -/
theorem limaDecode_bad_magic (v sz : Nat) (buff : List Nat) (n : Nat)
    (hv : structSize v = some sz)
    (hlen : ¬ buff.length < sz)
    (hmagic : decU32 buff 0 ≠ limaMagic) :
    LimaImageFormat.decode v buff n = .error .malformedHeader := by
  simp only [LimaImageFormat.decode, hv, if_neg hlen, if_pos hmagic]

/-- C7 (confirmed): for every supported version `v` (struct size `sz`),
every valid pixel type `typ` (dtype `dtName`, `psz` bytes per pixel),
dimensions below 2^16 and `n ≥ 1`: decoding a buffer that concatenates `n`
synthetic version-`v` headers with `d1*d2*psz`-byte payloads yields exactly
`n` frames whose shape is the header's declared dimensions (in the
`(dim2, dim1)` order set by `frame.shape = d2, d1`) and whose data are the
payloads; and decoding any buffer (of at least header size) whose leading
magic word differs from `0x44544159` always fails with `malformedHeader`. -/
theorem c7_frame_codec (v sz typ psz d1 d2 n : Nat) (dtName : String)
    (pay : Nat → List Nat)
    (hv : structSize v = some sz)
    (htyp : dtypeOf typ = some (dtName, psz))
    (hd1 : d1 < 65536) (hd2 : d2 < 65536)
    (hpay : ∀ i, (pay i).length = d1 * d2 * psz)
    (hn : 1 ≤ n) :
    (LimaImageFormat.decode v
        (concatFrames (mkHeader v sz typ d1 d2) pay n) n
      = .ok ((List.range n).map
          (fun i => ⟨dtName, (d2, d1), pay i⟩ : Nat → Frame))) ∧
    (∀ buff : List Nat, ¬ buff.length < sz → decU32 buff 0 ≠ limaMagic →
      LimaImageFormat.decode v buff n = .error .malformedHeader) :=
  ⟨limaDecode_concat_ok v sz typ psz d1 d2 n dtName pay hv htyp hd1 hd2
      hpay hn,
   fun buff h1 h2 => limaDecode_bad_magic v sz buff n hv h1 h2⟩

/-- Witness for `c7_frame_codec`: two 2x3 `u1` frames of version 2 decode
to the two payloads, and an all-zero 64-byte buffer (wrong magic) fails
with `malformedHeader`. -/
theorem c7_frame_codec_witness :
    (LimaImageFormat.decode 2 (concatFrames (mkHeader 2 64 0 2 3)
        (fun i => List.replicate 6 i) 2) 2
      = .ok ((List.range 2).map
          (fun i => ⟨"u1", (3, 2), List.replicate 6 i⟩ : Nat → Frame))) ∧
    LimaImageFormat.decode 2 (List.replicate 64 0) 2
      = .error .malformedHeader := by
  constructor
  · exact (c7_frame_codec 2 64 0 1 2 3 2 "u1" (fun i => List.replicate 6 i)
      (by rfl) (by rfl) (by omega) (by omega) (fun i => by simp)
      (by omega)).1
  · refine (c7_frame_codec 2 64 0 1 2 3 2 "u1"
      (fun i => List.replicate 6 i) (by rfl) (by rfl) (by omega) (by omega)
      (fun i => by simp) (by omega)).2 (List.replicate 64 0) (by simp) ?_
    have h : decU32 (List.replicate 64 0) 0 = 0 := by rfl
    rw [h]
    norm_num [limaMagic]
